import Mathlib

/-!
Verification of the FG-stock synchronization scripts.

The repository has two Python scripts:
- FG_stock_dashboard_data.py : fetches report records, normalizes relation
  and nested-object field values into display scalars (flatten_record),
  saves a local snapshot, and publishes it to a remote worksheet
  (paste_downloaded_file_to_gsheet).
- FG_stock_data_pull.py : fetches container rows, explodes their nested
  line-item lists into flat rows (process_data), and publishes the rows to
  a remote worksheet (paste_to_gsheet).

Values flowing through the scripts are JSON-like: scalars, lists and string
keyed mappings.  We embed them as the inductive type Value; records are
association lists with Python-dict lookup (keys are unique, lookup finds
the entry).  The remote sinks are embedded as pure functions from the row
table to the list of spreadsheet operations they issue, in order; external
failures raised by the spreadsheet client are injected as parameters and
exception propagation is embedded with Except.
-/

/-- A JSON-like value as handled by the scripts: Python None/NaN, bool,
number, string, list, and string-keyed dict (association list). -/
inductive Value : Type where
  | vNull : Value
  | vBool : Bool → Value
  | vInt : Int → Value
  | vStr : String → Value
  | vList : List Value → Value
  | vDict : List (String × Value) → Value

/-- A record (Python dict): mapping from field name to value. -/
abbrev Rec := List (String × Value)

/-- Python dict membership and get: value of the first entry with the key. -/
def recLookup (r : Rec) (k : String) : Option Value :=
  r.lookup k

/-- Python d.get(k): the value for k, or None when k is absent. -/
def recGet (r : Rec) (k : String) : Value :=
  (recLookup r k).getD Value.vNull

/-- Embedding of the value transformation inside flatten_record
(FG_stock_dashboard_data.py, lines 150-155): a list of length exactly two
becomes its second element; otherwise a dict containing the key
display_name becomes the value of that key; every other value is returned
unchanged. -/
def flattenValue (v : Value) : Value :=
  match v with
  | Value.vList [_, b] => b
  | Value.vDict kvs =>
      match List.lookup "display_name" kvs with
      | some d => d
      | none => Value.vDict kvs
  | _ => v

/-- Embedding of flatten_record (FG_stock_dashboard_data.py, lines
150-155): a dict comprehension over the record entries, keeping every key
and applying the value transformation.  It is a pure function: the input
record is not mutated. -/
def flatten_record (r : Rec) : Rec :=
  r.map (fun kv => (kv.1, flattenValue kv.2))

/-- Written from the words of the spec (section 4.1): a two-element
sequence becomes its label (second element); a mapping containing key
display_name becomes that value; any other mapping or sequence is passed
through unchanged; a scalar is unchanged. -/
def specNormalizeValue (v : Value) : Value :=
  match v with
  | Value.vList l => if h : l.length = 2 then l.get ⟨1, by omega⟩ else Value.vList l
  | Value.vDict kvs =>
      match List.lookup "display_name" kvs with
      | some d => d
      | none => Value.vDict kvs
  | _ => v

/-- The keys of a record, in order. -/
def recKeys (r : Rec) : List String :=
  r.map Prod.fst

/-- A value the normalizer leaves unchanged by its own case analysis: not a
list of length exactly two, and not a dict containing key display_name. -/
def irreducibleValue : Value → Prop
  | Value.vList l => l.length ≠ 2
  | Value.vDict kvs => List.lookup "display_name" kvs = none
  | _ => True

theorem flattenValue_eq_spec (v : Value) : flattenValue v = specNormalizeValue v := by
  match v with
  | .vNull => rfl
  | .vBool _ => rfl
  | .vInt _ => rfl
  | .vStr _ => rfl
  | .vDict kvs => rfl
  | .vList [] => rfl
  | .vList [a] => rfl
  | .vList [a, b] => rfl
  | .vList (a :: b :: c :: t) =>
      have h : (a :: b :: c :: t).length ≠ 2 := by simp
      simp [flattenValue, specNormalizeValue, h]

theorem flattenValue_fixed (v : Value) (h : irreducibleValue v) : flattenValue v = v := by
  match v with
  | .vNull => rfl
  | .vBool _ => rfl
  | .vInt _ => rfl
  | .vStr _ => rfl
  | .vList [] => rfl
  | .vList [a] => rfl
  | .vList [a, b] => exact absurd rfl h
  | .vList (a :: b :: c :: t) => rfl
  | .vDict kvs =>
      have h2 : List.lookup "display_name" kvs = none := h
      simp [flattenValue, h2]

theorem flatten_record_fixed (s : Rec) (h : ∀ kv ∈ s, irreducibleValue kv.2) :
    flatten_record s = s := by
  induction s with
  | nil => rfl
  | cons kv t ih =>
      have h1 : irreducibleValue kv.2 := h kv (List.mem_cons_self kv t)
      have h2 := ih (fun x hx => h x (List.mem_cons_of_mem kv hx))
      calc (kv :: t).map (fun p => (p.1, flattenValue p.2))
          = (kv.1, flattenValue kv.2) :: flatten_record t := rfl
        _ = kv :: t := by rw [flattenValue_fixed kv.2 h1, h2]

/-- C1: flatten_record returns a mapping with exactly the same keys, every
two-element list replaced by its label, every dict containing display_name
replaced by that value, and every other value passed through unchanged.
It is a pure function of its argument (the embedding is a Lean function),
so it has no side effects. -/
theorem C1_normalizer_matches_spec (r : Rec) :
    flatten_record r = r.map (fun kv => (kv.1, specNormalizeValue kv.2)) ∧
    recKeys (flatten_record r) = recKeys r := by
  constructor
  · unfold flatten_record
    exact List.map_congr_left (fun kv _ => by rw [flattenValue_eq_spec])
  · simp [recKeys, flatten_record]

/-- C6 counterexample: the normalizer is not idempotent.  On the record
whose single value is the relation pair [1, [2, "x"]] (the label being
itself a two-element list), one pass yields [2, "x"] and a second pass
reduces that further to "x". -/
theorem C6_cex_not_idempotent :
    flatten_record (flatten_record
      [("a", Value.vList [Value.vInt 1, Value.vList [Value.vInt 2, Value.vStr "x"]])]) ≠
    flatten_record
      [("a", Value.vList [Value.vInt 1, Value.vList [Value.vInt 2, Value.vStr "x"]])] := by
  simp [flatten_record, flattenValue]

/-- C6 amended: the normalizer is idempotent on every record whose values
after one normalization are irreducible (not a two-element list and not a
dict containing display_name); on records with a still-reducible
normalized value a second pass reduces further, so unrestricted
idempotence fails. -/
theorem C6_idempotent_on_irreducible (r : Rec)
    (h : ∀ kv ∈ flatten_record r, irreducibleValue kv.2) :
    flatten_record (flatten_record r) = flatten_record r :=
  flatten_record_fixed (flatten_record r) h

/-- Witness for C6 amended at the record [("k", "v")]. -/
theorem C6_idempotent_on_irreducible_witness :
    flatten_record (flatten_record [("k", Value.vStr "v")]) =
      flatten_record [("k", Value.vStr "v")] :=
  C6_idempotent_on_irreducible [("k", Value.vStr "v")] (by
    intro kv hkv
    simp [flatten_record, flattenValue] at hkv
    rw [hkv]
    exact trivial)

/-!
The line-item explode mapper process_data (FG_stock_data_pull.py, lines
108-147).  The input DataFrame is built from the fetched list of container
dicts, so a row is embedded as a Rec and the pandas row.get as recGet
(an absent column gives None/NaN, which is not a list, so the branch
behaviour is identical).  A Python for-loop body that may raise is
embedded as an Except-valued map where the first raise aborts the loop.
-/

/-- Except-valued map over a list: applies f left to right, returning the
first error if any, otherwise the ordered list of results. -/
def exMap {α β : Type} (f : α → Except String β) : List α → Except String (List β)
  | [] => Except.ok []
  | x :: xs =>
      match f x with
      | Except.error msg => Except.error msg
      | Except.ok y =>
          match exMap f xs with
          | Except.error msg => Except.error msg
          | Except.ok ys => Except.ok (y :: ys)

/-- The fixed FieldMap of process_data: the 30 output columns, in the order
of the dict literal at lines 115-146, paired with the source field keys. -/
def fieldMap : List (String × String) :=
  [("OA", "oa_name"),
   ("Order Date", "date_order"),
   ("Closing Date", "closing_date"),
   ("Sample", "sample"),
   ("PI", "pi"),
   ("Customer", "partner_id"),
   ("Buyer", "buyer_id"),
   ("Invoice No", "invoice_line_id"),
   ("Invoice Date", "invoice_date"),
   ("LC Number", "lc_number"),
   ("LC Date", "lc_date"),
   ("Sales Person", "sales_person"),
   ("Region", "region"),
   ("DSM", "dsm"),
   ("Item", "fg_categ_type"),
   ("Product", "product_id"),
   ("Order QTY", "order_qty"),
   ("Order Value", "order_value"),
   ("Recived QTY", "received_qty"),
   ("Recived Value", "received_value"),
   ("Goods In Date", "goods_in_date"),
   ("Delivered QTY", "delivered_qty"),
   ("Delivered Value", "delivered_value"),
   ("Delivered Date", "delivery_date"),
   ("Pending QTY", "pending_qty"),
   ("Stock QTY", "stock_qty"),
   ("Stock Value", "stock_value"),
   ("Age", "days_passed"),
   ("Invoice QTY", "invoice_qty"),
   ("Invoice Value", "invoice_value")]

/-- Python e.get(k) where e must be a dict: raises AttributeError on any
other value, returns None (vNull) for a missing key. -/
def dictGet : Value → String → Except String Value
  | Value.vDict kvs, k => Except.ok ((List.lookup k kvs).getD Value.vNull)
  | _, _ => Except.error "AttributeError: get"

/-- One entry of the output dict literal: (output column, e.get(source key)). -/
def projectField (e : Value) (p : String × String) : Except String (String × Value) :=
  match dictGet e p.2 with
  | Except.error msg => Except.error msg
  | Except.ok v => Except.ok (p.1, v)

/-- The output dict literal of the loop body, generalized over the FieldMap. -/
def mapLineItemWith (fm : List (String × String)) (e : Value) : Except String Rec :=
  exMap (projectField e) fm

/-- The output dict literal of the loop body at the fixed FieldMap. -/
def mapLineItem (e : Value) : Except String Rec :=
  mapLineItemWith fieldMap e

/-- Python isinstance(v, list). -/
def Value.isPyList : Value → Bool
  | Value.vList _ => true
  | _ => false

/-- Line 111: entries = row.get of datas if that is a list, else row.get of
delivery_data. -/
def lineEntries (row : Rec) : Value :=
  if (recGet row "datas").isPyList then recGet row "datas"
  else recGet row "delivery_data"

/-- Lines 111-146 for one container row: if entries is not a list the row
is skipped (continue), otherwise one output row per line item. -/
def processRow (row : Rec) : Except String (List Rec) :=
  match lineEntries row with
  | Value.vList es => exMap mapLineItem es
  | _ => Except.ok []

/-- Embedding of process_data (lines 108-147): iterate the containers in
order, explode each, and concatenate the per-container rows in order. -/
def process_data (df : List Rec) : Except String (List Rec) :=
  match exMap processRow df with
  | Except.error msg => Except.error msg
  | Except.ok rss => Except.ok rss.flatten

theorem exMap_congr_ok {α β : Type} (f : α → Except String β) (g : α → β) (l : List α)
    (h : ∀ x ∈ l, f x = Except.ok (g x)) : exMap f l = Except.ok (l.map g) := by
  induction l with
  | nil => rfl
  | cons x t ih =>
      unfold exMap
      rw [h x (List.mem_cons_self x t), ih (fun y hy => h y (List.mem_cons_of_mem x hy))]
      rfl

theorem exMap_mem {α β : Type} (f : α → Except String β) (l : List α) (ys : List β)
    (h : exMap f l = Except.ok ys) : ∀ y ∈ ys, ∃ x ∈ l, f x = Except.ok y := by
  induction l generalizing ys with
  | nil =>
      cases h
      intro y hy
      cases hy
  | cons x t ih =>
      unfold exMap at h
      cases hx : f x with
      | error m => rw [hx] at h; cases h
      | ok y0 =>
          rw [hx] at h
          cases ht : exMap f t with
          | error m => rw [ht] at h; cases h
          | ok ys0 =>
              rw [ht] at h
              cases h
              intro y hy
              rcases List.mem_cons.mp hy with h1 | h2
              · exact ⟨x, List.mem_cons_self x t, h1 ▸ hx⟩
              · rcases ih ys0 ht y h2 with ⟨z, hz, hfz⟩
                exact ⟨z, List.mem_cons_of_mem x hz, hfz⟩

theorem exMap_append {α β : Type} (f : α → Except String β) (l1 l2 : List α)
    (r1 r2 : List β) (h1 : exMap f l1 = Except.ok r1) (h2 : exMap f l2 = Except.ok r2) :
    exMap f (l1 ++ l2) = Except.ok (r1 ++ r2) := by
  induction l1 generalizing r1 with
  | nil =>
      cases h1
      simpa using h2
  | cons x t ih =>
      unfold exMap at h1
      cases hx : f x with
      | error m => rw [hx] at h1; cases h1
      | ok y0 =>
          rw [hx] at h1
          cases ht : exMap f t with
          | error m => rw [ht] at h1; cases h1
          | ok ys0 =>
              rw [ht] at h1
              cases h1
              show exMap f (x :: (t ++ l2)) = _
              unfold exMap
              rw [hx, ih ys0 ht]
              rfl

theorem flatten_map_nil {α β : Type} (l : List α) :
    (l.map (fun _ => ([] : List β))).flatten = [] := by
  induction l with
  | nil => rfl
  | cons x t ih => simp [ih]

theorem processRow_no_sequence (row : Rec)
    (h1 : (recGet row "datas").isPyList = false)
    (h2 : (recGet row "delivery_data").isPyList = false) :
    processRow row = Except.ok [] := by
  have he : lineEntries row = recGet row "delivery_data" := by simp [lineEntries, h1]
  unfold processRow
  rw [he]
  cases hd : recGet row "delivery_data" with
  | vNull => rfl
  | vBool b => rfl
  | vInt n => rfl
  | vStr s => rfl
  | vList l => rw [hd] at h2; simp [Value.isPyList] at h2
  | vDict kvs => rfl

theorem mapLineItemWith_keys (fm : List (String × String)) (e : Value) (r : Rec)
    (h : mapLineItemWith fm e = Except.ok r) : recKeys r = fm.map Prod.fst := by
  induction fm generalizing r with
  | nil => cases h; rfl
  | cons p t ih =>
      unfold mapLineItemWith exMap at h
      cases hx : projectField e p with
      | error m => rw [hx] at h; cases h
      | ok y0 =>
          rw [hx] at h
          cases ht : exMap (projectField e) t with
          | error m => rw [ht] at h; cases h
          | ok ys0 =>
              rw [ht] at h
              cases h
              have hk : y0.1 = p.1 := by
                unfold projectField at hx
                cases hd : dictGet e p.2 with
                | error m => rw [hd] at hx; cases hx
                | ok v => rw [hd] at hx; cases hx; rfl
              have hrest := ih ys0 ht
              simp [recKeys] at hrest ⊢
              exact ⟨hk, hrest⟩

theorem processRow_keys (row : Rec) (rs : List Rec) (h : processRow row = Except.ok rs) :
    ∀ r ∈ rs, recKeys r = fieldMap.map Prod.fst := by
  unfold processRow at h
  cases he : lineEntries row with
  | vList es =>
      rw [he] at h
      intro r hr
      rcases exMap_mem mapLineItem es rs h r hr with ⟨e, he2, hme⟩
      exact mapLineItemWith_keys fieldMap e r hme
  | vNull => rw [he] at h; cases h; intro r hr; cases hr
  | vBool b => rw [he] at h; cases h; intro r hr; cases hr
  | vInt n => rw [he] at h; cases h; intro r hr; cases hr
  | vStr s => rw [he] at h; cases h; intro r hr; cases hr
  | vDict kvs => rw [he] at h; cases h; intro r hr; cases hr

theorem process_data_keys (df : List Rec) (rows : List Rec)
    (h : process_data df = Except.ok rows) :
    ∀ r ∈ rows, recKeys r = fieldMap.map Prod.fst := by
  unfold process_data at h
  cases hm : exMap processRow df with
  | error m => rw [hm] at h; cases h
  | ok rss =>
      rw [hm] at h
      cases h
      intro r hr
      rcases List.mem_flatten.mp hr with ⟨rs, hrs, hr2⟩
      rcases exMap_mem processRow df rss hm rs hrs with ⟨row, hrow, hpr⟩
      exact processRow_keys row rs hpr r hr2

theorem process_data_append (df1 df2 : List Rec) (r1 r2 : List Rec)
    (h1 : process_data df1 = Except.ok r1) (h2 : process_data df2 = Except.ok r2) :
    process_data (df1 ++ df2) = Except.ok (r1 ++ r2) := by
  unfold process_data at h1 h2 ⊢
  cases m1 : exMap processRow df1 with
  | error m => rw [m1] at h1; cases h1
  | ok a =>
      rw [m1] at h1
      cases h1
      cases m2 : exMap processRow df2 with
      | error m => rw [m2] at h2; cases h2
      | ok b =>
          rw [m2] at h2
          cases h2
          rw [exMap_append processRow df1 df2 a b m1 m2]
          simp [List.flatten_append]

theorem process_data_singleton (row : Rec) (es : List Value) (rs : List Rec)
    (h1 : lineEntries row = Value.vList es) (h2 : exMap mapLineItem es = Except.ok rs) :
    process_data [row] = Except.ok rs := by
  have hp : processRow row = Except.ok rs := by
    unfold processRow
    rw [h1]
    exact h2
  unfold process_data exMap
  rw [hp]
  simp [exMap]

/-- C2: the mapper takes line items from key datas whenever its value is a
list, otherwise from key delivery_data; in particular the container whose
datas is the string "not-a-list" and whose delivery_data holds one line
item produces exactly the one row for OA2, and the container whose datas
holds one line item produces exactly the one row for OA1 with Order QTY 5
(the fixed FieldMap fills the remaining 28 columns with None). -/
theorem C2_primary_key_preference :
    (∀ row : Rec, (recGet row "datas").isPyList = true →
        lineEntries row = recGet row "datas") ∧
    (∀ row : Rec, (recGet row "datas").isPyList = false →
        lineEntries row = recGet row "delivery_data") ∧
    process_data [[("datas", Value.vStr "not-a-list"),
        ("delivery_data", Value.vList [Value.vDict [("oa_name", Value.vStr "OA2")]])]] =
      Except.ok [fieldMap.map (fun p =>
        (p.1, if p.2 = "oa_name" then Value.vStr "OA2" else Value.vNull))] ∧
    process_data [[("datas", Value.vList [Value.vDict
        [("oa_name", Value.vStr "OA1"), ("order_qty", Value.vInt 5)]])]] =
      Except.ok [fieldMap.map (fun p =>
        (p.1, if p.2 = "oa_name" then Value.vStr "OA1"
              else if p.2 = "order_qty" then Value.vInt 5 else Value.vNull))] := by
  refine ⟨?_, ?_, by rfl, by rfl⟩
  · intro row h
    simp [lineEntries, h]
  · intro row h
    simp [lineEntries, h]

/-- Witness for C2 at a container whose datas is a list and one whose
datas is a string. -/
theorem C2_primary_key_preference_witness :
    lineEntries [("datas", Value.vList [])] = recGet [("datas", Value.vList [])] "datas" ∧
    lineEntries [("datas", Value.vStr "x")] =
      recGet [("datas", Value.vStr "x")] "delivery_data" :=
  ⟨C2_primary_key_preference.1 [("datas", Value.vList [])] rfl,
   C2_primary_key_preference.2.1 [("datas", Value.vStr "x")] rfl⟩

/-- C3: a container in which neither datas nor delivery_data holds a list
contributes zero rows, raises nothing, and a whole frame of such
containers yields the empty row list (no row of empties). -/
theorem C3_no_sequence_zero_rows (df : List Rec)
    (h : ∀ row ∈ df, (recGet row "datas").isPyList = false ∧
        (recGet row "delivery_data").isPyList = false) :
    process_data df = Except.ok [] ∧ ∀ row ∈ df, processRow row = Except.ok [] := by
  have hall : ∀ row ∈ df, processRow row = Except.ok [] :=
    fun row hr => processRow_no_sequence row (h row hr).1 (h row hr).2
  refine ⟨?_, hall⟩
  unfold process_data
  rw [exMap_congr_ok processRow (fun _ => []) df hall]
  show Except.ok ((df.map (fun _ => ([] : List Rec))).flatten) = Except.ok []
  rw [flatten_map_nil]

/-- Witness for C3 at a frame with a non-list datas container and a
container lacking both keys. -/
theorem C3_no_sequence_zero_rows_witness :
    process_data [[("datas", Value.vStr "x")], [("note", Value.vInt 1)]] = Except.ok [] :=
  (C3_no_sequence_zero_rows [[("datas", Value.vStr "x")], [("note", Value.vInt 1)]]
    (by decide)).1

/-- C4: a dict line item is always mapped without error to the row whose
entries are the 30 FieldMap columns in order, a missing source key giving
None; and every row ever produced by process_data has exactly the FieldMap
column names, in order, as its keys. -/
theorem C4_row_keys_fixed :
    (∀ kvs : List (String × Value), mapLineItem (Value.vDict kvs) =
        Except.ok (fieldMap.map (fun p => (p.1, (List.lookup p.2 kvs).getD Value.vNull)))) ∧
    (∀ df rows, process_data df = Except.ok rows →
        ∀ r ∈ rows, recKeys r = fieldMap.map Prod.fst) := by
  constructor
  · intro kvs
    unfold mapLineItem mapLineItemWith
    exact exMap_congr_ok (projectField (Value.vDict kvs)) _ fieldMap (fun p _ => rfl)
  · intro df rows h r hr
    exact process_data_keys df rows h r hr

/-- Sample line item, container and exploded row used by the witnesses. -/
def sampleItem : Rec := [("oa_name", Value.vStr "OA1"), ("order_qty", Value.vInt 5)]

def sampleContainer : Rec := [("datas", Value.vList [Value.vDict sampleItem])]

def sampleRow : Rec :=
  fieldMap.map (fun p => (p.1, (List.lookup p.2 sampleItem).getD Value.vNull))

/-- Witness for C4 at the sample line item and the sample frame. -/
theorem C4_row_keys_fixed_witness :
    mapLineItem (Value.vDict sampleItem) =
      Except.ok (fieldMap.map (fun p => (p.1, (List.lookup p.2 sampleItem).getD Value.vNull))) ∧
    recKeys sampleRow = fieldMap.map Prod.fst :=
  ⟨C4_row_keys_fixed.1 sampleItem,
   C4_row_keys_fixed.2 [sampleContainer] [sampleRow] (by rfl) sampleRow (by simp)⟩

/-- C5: output order is a deterministic function of input order: frames
concatenate to concatenated row lists (container order preserved), line
item lists concatenate likewise within a container, and a single container
whose line items explode to rs yields exactly rs, in that order. -/
theorem C5_order_preserved :
    (∀ df1 df2 r1 r2, process_data df1 = Except.ok r1 → process_data df2 = Except.ok r2 →
        process_data (df1 ++ df2) = Except.ok (r1 ++ r2)) ∧
    (∀ (es1 es2 : List Value) (r1 r2 : List Rec),
        exMap mapLineItem es1 = Except.ok r1 → exMap mapLineItem es2 = Except.ok r2 →
        exMap mapLineItem (es1 ++ es2) = Except.ok (r1 ++ r2)) ∧
    (∀ row es rs, lineEntries row = Value.vList es →
        exMap mapLineItem es = Except.ok rs → process_data [row] = Except.ok rs) :=
  ⟨process_data_append,
   fun es1 es2 r1 r2 => exMap_append mapLineItem es1 es2 r1 r2,
   process_data_singleton⟩

/-- Witness for C5: two copies of the sample container produce the sample
row twice, in order. -/
theorem C5_order_preserved_witness :
    process_data ([sampleContainer] ++ [sampleContainer]) =
      Except.ok ([sampleRow] ++ [sampleRow]) :=
  C5_order_preserved.1 [sampleContainer] [sampleContainer] [sampleRow] [sampleRow]
    (by rfl) (by rfl)

/-!
The remote sinks.  Each sink is embedded as a pure function from the row
table and the timestamp string to the ordered list of spreadsheet
operations it issues: clearing a range, writing the table at the origin,
writing a single cell.  A pandas DataFrame is embedded as a header (the
column names) plus data rows; DataFrame.empty is true when either axis has
length zero.  Both sinks are total functions, so on the skip path they
return normally having issued nothing.
-/

/-- A DataFrame as the sinks see it: column names and data rows. -/
structure Table where
  header : List String
  rows : List (List Value)

/-- pandas DataFrame.empty: true when an axis has length zero. -/
def Table.isEmpty (t : Table) : Bool :=
  t.rows.isEmpty || t.header.isEmpty

/-- One operation issued against the remote worksheet. -/
inductive SheetOp where
  | batchClear : String → SheetOp
  | writeTable : Table → SheetOp
  | updateCell : String → String → SheetOp

/-- Embedding of paste_to_gsheet (FG_stock_data_pull.py, lines 150-162):
an empty frame issues nothing; otherwise clear A:AD, write the frame
unchanged at the origin, then write the timestamp at AF2. -/
def paste_to_gsheet (df : Table) (timestamp : String) : List SheetOp :=
  if df.isEmpty then []
  else [SheetOp.batchClear "A:AD", SheetOp.writeTable df,
        SheetOp.updateCell "AF2" timestamp]

/-- Lines 193-194 of FG_stock_dashboard_data.py: df.iloc dropping the
leading column. -/
def dropFirstColumn (t : Table) : Table :=
  { header := t.header.tail, rows := t.rows.map List.tail }

/-- The guarded drop: only when the frame has more than one column. -/
def maybeDropFirst (t : Table) : Table :=
  if t.header.length > 1 then dropFirstColumn t else t

/-- Line 208: df.replace(False, "") on one cell. -/
def replaceFalseCell : Value → Value
  | Value.vBool false => Value.vStr ""
  | v => v

/-- Line 208: df.replace(False, "") on the whole frame. -/
def replaceFalse (t : Table) : Table :=
  { header := t.header, rows := t.rows.map (List.map replaceFalseCell) }

/-- Lines 205-217: the publish step on the frame as loaded and trimmed:
skip when empty, else clear A:L, write the frame with false cells blanked,
then write the timestamp at M1. -/
def publishOps (df : Table) (timestamp : String) : List SheetOp :=
  if df.isEmpty then []
  else [SheetOp.batchClear "A:L", SheetOp.writeTable (replaceFalse df),
        SheetOp.updateCell "M1" timestamp]

/-- Embedding of paste_downloaded_file_to_gsheet
(FG_stock_dashboard_data.py, lines 190-217) from the loaded snapshot
frame on: optional drop of the leading column, then the publish step. -/
def paste_downloaded_file_to_gsheet (loaded : Table) (timestamp : String) : List SheetOp :=
  publishOps (maybeDropFirst loaded) timestamp

/-- C8: with an empty row table neither publish function issues any
operation: no clear, no table write, no timestamp write; being total
functions they return normally. -/
theorem C8_empty_skips_publish :
    (∀ (df : Table) (ts : String), df.rows = [] → paste_to_gsheet df ts = []) ∧
    (∀ (loaded : Table) (ts : String), loaded.rows = [] →
        paste_downloaded_file_to_gsheet loaded ts = []) := by
  constructor
  · intro df ts h
    simp [paste_to_gsheet, Table.isEmpty, h]
  · intro loaded ts h
    have hr : (maybeDropFirst loaded).rows = [] := by
      unfold maybeDropFirst dropFirstColumn
      split
      · simp [h]
      · exact h
    simp [paste_downloaded_file_to_gsheet, publishOps, Table.isEmpty, hr]

/-- Witness for C8 at concrete empty frames. -/
theorem C8_empty_skips_publish_witness :
    paste_to_gsheet ⟨["A"], []⟩ "t" = [] ∧
    paste_downloaded_file_to_gsheet ⟨["A", "B"], []⟩ "t" = [] :=
  ⟨C8_empty_skips_publish.1 ⟨["A"], []⟩ "t" rfl,
   C8_empty_skips_publish.2 ⟨["A", "B"], []⟩ "t" rfl⟩

/-- C10: the dashboard publish drops the loaded frame's leading column
exactly when it has more than one column; with one column (or none) the
frame goes to the publish step intact, that column included. -/
theorem C10_drop_first_column_iff (t : Table) (ts : String) :
    (t.header.length > 1 →
        paste_downloaded_file_to_gsheet t ts = publishOps (dropFirstColumn t) ts) ∧
    (t.header.length ≤ 1 →
        paste_downloaded_file_to_gsheet t ts = publishOps t ts) := by
  constructor
  · intro h
    simp [paste_downloaded_file_to_gsheet, maybeDropFirst, h]
  · intro h
    have h2 : ¬ t.header.length > 1 := by omega
    simp [paste_downloaded_file_to_gsheet, maybeDropFirst, h2]

/-- Witness for C10 at a two-column and a one-column frame. -/
theorem C10_drop_first_column_iff_witness :
    paste_downloaded_file_to_gsheet ⟨["A", "B"], [[Value.vInt 1, Value.vInt 2]]⟩ "t" =
      publishOps (dropFirstColumn ⟨["A", "B"], [[Value.vInt 1, Value.vInt 2]]⟩) "t" ∧
    paste_downloaded_file_to_gsheet ⟨["A"], [[Value.vInt 1]]⟩ "t" =
      publishOps ⟨["A"], [[Value.vInt 1]]⟩ "t" :=
  ⟨(C10_drop_first_column_iff ⟨["A", "B"], [[Value.vInt 1, Value.vInt 2]]⟩ "t").1
      (by decide),
   (C10_drop_first_column_iff ⟨["A"], [[Value.vInt 1]]⟩ "t").2 (by decide)⟩

/-- C7 counterexample: the pull script's publish step
(FG_stock_data_pull.py, paste_to_gsheet) writes its frame unchanged, so a
false cell is handed to the write call as false, not as the empty
string. -/
theorem C7_cex_pull_sink_keeps_false :
    paste_to_gsheet ⟨["A"], [[Value.vBool false]]⟩ "t" =
      [SheetOp.batchClear "A:AD",
       SheetOp.writeTable ⟨["A"], [[Value.vBool false]]⟩,
       SheetOp.updateCell "AF2" "t"] ∧
    Value.vBool false ≠ Value.vStr "" := by
  constructor
  · rfl
  · intro h
    cases h

/-- C7 amended: the false-to-empty policy lives only in the dashboard
sink: every table written by paste_downloaded_file_to_gsheet is the loaded
(column-trimmed) frame with each false cell replaced by the empty string,
the normalizer itself leaves false unchanged while reducing the relation
pair [7, "Acme Corp"] to "Acme Corp", and the pull script's
paste_to_gsheet writes its frame unchanged, false cells included. -/
theorem C7_false_blanked_at_dashboard_sink :
    (∀ (loaded : Table) (ts : String) (t2 : Table),
        SheetOp.writeTable t2 ∈ paste_downloaded_file_to_gsheet loaded ts →
        t2 = replaceFalse (maybeDropFirst loaded)) ∧
    replaceFalseCell (Value.vBool false) = Value.vStr "" ∧
    flattenValue (Value.vBool false) = Value.vBool false ∧
    flattenValue (Value.vList [Value.vInt 7, Value.vStr "Acme Corp"]) =
      Value.vStr "Acme Corp" ∧
    (∀ (df : Table) (ts : String) (t2 : Table),
        SheetOp.writeTable t2 ∈ paste_to_gsheet df ts → t2 = df) := by
  refine ⟨?_, rfl, rfl, rfl, ?_⟩
  · intro loaded ts t2 h
    unfold paste_downloaded_file_to_gsheet publishOps at h
    split at h
    · cases h
    · simp at h
      exact h
  · intro df ts t2 h
    unfold paste_to_gsheet at h
    split at h
    · cases h
    · simp at h
      exact h

/-- Witness for C7 amended: the table written for a loaded two-column
frame with a false cell is the trimmed frame with that cell blanked. -/
theorem C7_false_blanked_at_dashboard_sink_witness :
    replaceFalse (maybeDropFirst ⟨["A", "B"], [[Value.vInt 1, Value.vBool false]]⟩) =
      replaceFalse (maybeDropFirst ⟨["A", "B"], [[Value.vInt 1, Value.vBool false]]⟩) :=
  C7_false_blanked_at_dashboard_sink.1
    ⟨["A", "B"], [[Value.vInt 1, Value.vBool false]]⟩ "t"
    (replaceFalse (maybeDropFirst ⟨["A", "B"], [[Value.vInt 1, Value.vBool false]]⟩))
    (by simp [paste_downloaded_file_to_gsheet, publishOps, maybeDropFirst,
              dropFirstColumn, Table.isEmpty])

/-!
Exception flow around the publish step.  The external spreadsheet client
may raise inside a publish call; that effect is injected as an
Except-valued publish action per company.  In the dashboard script the
whole body of paste_downloaded_file_to_gsheet sits in a try/except that
only logs (lines 181, 219-220), so the per-company loop of its main block
(lines 233-250) reaches every company.  In the pull script
paste_to_gsheet has no handler and the main loop (lines 165-171) calls it
bare, so an exception escapes the loop and the remaining companies are
never processed.
-/

/-- The dashboard publish wrapper: the whole body is under try/except, so
a raising publish yields no operations and no exception. -/
def pasteDashboardCaught (body : Except String (List SheetOp)) : List SheetOp :=
  match body with
  | Except.ok ops => ops
  | Except.error _ => []

/-- The dashboard main loop over companies: every publish attempt is made
under the catching wrapper. -/
def runDashboardCompanies (companies : List Nat)
    (publish : Nat → Except String (List SheetOp)) : List (Nat × List SheetOp) :=
  companies.map (fun c => (c, pasteDashboardCaught (publish c)))

/-- The pull script main loop over companies: the publish call has no
handler, so the first raising publish aborts the rest of the loop. -/
def runPullCompanies (companies : List Nat)
    (publish : Nat → Except String (List SheetOp)) :
    Except String (List (Nat × List SheetOp)) :=
  exMap (fun c =>
    match publish c with
    | Except.error msg => Except.error msg
    | Except.ok ops => Except.ok (c, ops)) companies

/-- C9 counterexample: in the pull script a publish failure propagates out
of the per-company loop: with companies [1, 3] and a publish raising for
company 1, the run aborts with that error and company 3 is never
processed. -/
theorem C9_cex_pull_failure_propagates :
    runPullCompanies [1, 3]
      (fun c => if c = 1 then Except.error "gspread failure" else Except.ok []) =
      Except.error "gspread failure" := by
  rfl

/-- C9 amended: only the dashboard script catches publish failures: its
per-company loop reaches every company whatever the publish calls raise,
while the pull script aborts the loop at the first failure
(counterexample). -/
theorem C9_dashboard_loop_covers_all_companies (companies : List Nat)
    (publish : Nat → Except String (List SheetOp)) :
    (runDashboardCompanies companies publish).map Prod.fst = companies := by
  unfold runDashboardCompanies
  rw [List.map_map]
  exact List.map_id companies
